import Mathlib

/-!
Verification development for the random-forest hyperparameter-search pipeline
in `machine-learning/scripts/2-rf_reg_random-cv.py`.

The script is shallowly embedded:
* a pandas `DataFrame` becomes a list of column names plus a list of rows;
* cell values are exact rationals; the value `np.log q` (for `q > 0`) is
  represented symbolically by the constructor `Cell.logOf q`, and the IEEE
  `-inf` produced by `np.log 0.0` by `Cell.negInf`;
* the joblib pickle store becomes an association list from path strings to
  blobs; `os.path.join d f` becomes `d ++ "/" ++ f`;
* the opaque sklearn collaborators (`RandomizedSearchCV(...).fit` and
  `train_test_split`) are treated per the spec as external collaborators:
  the fitted search outcome is a parameter, and `train_test_split` is
  modelled from its documented contract (see its doc comment);
* pandas in-place mutation is made observable by a separate heap model
  (`Heap`, references are indices) layered over the pure functions.
-/

/-- A cell of the tabular dataset.  `num q` is an ordinary finite numeric
value (modelled as an exact rational), `str s` a string entry, `logOf q`
the real number `log q` (only ever produced with `q > 0`), and `negInf`
the IEEE `-inf` that `np.log` yields at `0.0`. -/
inductive Cell
  | num (q : ℚ)
  | str (s : String)
  | logOf (q : ℚ)
  | negInf
deriving DecidableEq

/-- Whether a cell holds a finite numeric value. -/
def Cell.isFinite : Cell → Bool
  | .num _ => true
  | .logOf _ => true
  | _ => false

/-- Models `np.log(np.abs(x))` on a finite numeric input: at `0` numpy emits
a warning and returns `-inf` (no exception); elsewhere the value is
`log |x|`, kept symbolic. -/
def npLogAbs (q : ℚ) : Cell :=
  if q = 0 then .negInf else .logOf |q|

/-- The encoding lambda of the script lifted to cells.  The mapped column
(`loop-tof`) only holds numeric entries; non-numeric cells are returned
unchanged (they never occur in that column). -/
def npLogAbsCell : Cell → Cell
  | .num q => npLogAbs q
  | c => c

/-- A pandas DataFrame: named columns and rows of cells.  Well-formed frames
have every row of the same length as `cols`. -/
structure DataFrame where
  cols : List String
  rows : List (List Cell)
deriving DecidableEq

/-- Row well-formedness: each row has exactly one cell per column. -/
def DataFrame.wf (df : DataFrame) : Prop :=
  ∀ r ∈ df.rows, r.length = df.cols.length

instance (df : DataFrame) : Decidable df.wf := by
  unfold DataFrame.wf; infer_instance

/-- Index of a column name in the header (pandas column lookup). -/
def colIdx (df : DataFrame) (c : String) : Nat :=
  df.cols.indexOf c

/-- Cell of a row at a column index (total, with a default that never shows
up on well-formed frames and present columns). -/
def getCell (r : List Cell) (i : Nat) : Cell :=
  r.getD i (.num 0)

/-- Column extraction `df[c]` as a list of values. -/
def DataFrame.getCol (df : DataFrame) (c : String) : List Cell :=
  df.rows.map (fun r => getCell r (colIdx df c))

/-- Projection of a row to a feature list, `df[features]` rowwise. -/
def selectRow (df : DataFrame) (features : List String) (r : List Cell) : List Cell :=
  features.map (fun f => getCell r (colIdx df f))

/-- The feature matrix `df[features]`: every row projected to the feature
columns, in feature-list order. -/
def DataFrame.selectCols (df : DataFrame) (features : List String) : List (List Cell) :=
  df.rows.map (selectRow df features)

/-- Row filter `df.loc[mask]` with an elementwise mask: keeps, in order, the
rows whose cells satisfy the predicate; a fresh frame is produced. -/
def DataFrame.filterRows (df : DataFrame) (p : List Cell → Bool) : DataFrame :=
  ⟨df.cols, df.rows.filter p⟩

/-- The float literal `1e-4` as an exact rational, written as a reduced
fraction literal so that the kernel can evaluate comparisons against it. -/
def epsPos : ℚ := ⟨1, 10000, by norm_num, by norm_num⟩

/-- The float literal `-1e-4` likewise. -/
def epsNeg : ℚ := ⟨-1, 10000, by norm_num, by norm_num⟩

/-- The reduced-fraction literal agrees with `1 / 10000`. -/
theorem epsPos_eq : epsPos = 1 / 10000 := by
  unfold epsPos
  rw [Rat.mk'_eq_divInt, Rat.divInt_eq_div]
  norm_num

/-- The reduced-fraction literal agrees with `-(1 / 10000)`. -/
theorem epsNeg_eq : epsNeg = -(1 / 10000) := by
  unfold epsNeg
  rw [Rat.mk'_eq_divInt, Rat.divInt_eq_div]
  norm_num

/-- The steady-state inclusion test of the script, elementwise on the
`loop-tof` value: `v <= -1e-4 or v >= 1e-4` (the float literals modelled
as the exact rationals `epsNeg` and `epsPos`).  Non-numeric cells never
occur in that column; they fail the test. -/
def loopTofKeep : Cell → Bool
  | .num q => decide (q ≤ epsNeg) || decide (epsPos ≤ q)
  | _ => false

/-- The row predicate the mask `(df["loop-tof"] <= -1e-4) | (df["loop-tof"] >= 1e-4)`
induces on a row of `df`. -/
def steadyPred (df : DataFrame) (r : List Cell) : Bool :=
  loopTofKeep (getCell r (colIdx df "loop-tof"))

/-- The Filtering Stage: `df_filtered = df.loc[condition]` from `main`. -/
def filterSteady (df : DataFrame) : DataFrame :=
  df.filterRows (steadyPred df)

/-- `map_target_values(df, target, new_target_name, encoding)`:
`df[new_target_name] = df[target].map(encoding)` followed by `return df`.
Column assignment replaces the column when the name already exists and
appends it otherwise; the value written to each row is the encoding of that
row's `target` entry (column indices taken on the incoming frame). -/
def map_target_values (df : DataFrame) (target new_target_name : String)
    (encoding : Cell → Cell) : DataFrame :=
  if df.cols.contains new_target_name then
    ⟨df.cols,
     df.rows.map (fun r =>
       r.set (colIdx df new_target_name) (encoding (getCell r (colIdx df target))))⟩
  else
    ⟨df.cols ++ [new_target_name],
     df.rows.map (fun r => r ++ [encoding (getCell r (colIdx df target))])⟩

/-- Errors the Partitioner can signal: the `assert` on the feature list
(a configuration error) and `ValueError`s (from the library splitter or
from the shape check). -/
inductive SplitErr
  | configError (msg : String)
  | valueError (msg : String)
deriving DecidableEq

deriving instance DecidableEq for Except

/-- The 4-tuple `(X_train, X_test, Y_train, Y_test)`. -/
abbrev SplitResult :=
  List (List Cell) × List (List Cell) × List Cell × List Cell

/-- Ceiling of `test_size * n` computed on the fraction's parts (no
rational normalization involved, so the kernel can evaluate it):
`ceil (a/b * n) = -((-(a * n)) fdiv b)` for `b > 0`. -/
def ceilMul (p : ℚ) (n : Nat) : ℤ :=
  -((-(p.num * n)).fdiv p.den)

/-- One step of a linear congruential generator; stands in for the numpy
pseudo-random stream seeded by `random_state`. -/
def lcgNext (s : Nat) : Nat :=
  (s * 1103515245 + 12345) % 2147483648

/-- Fisher-Yates selection driven by the generator: draws elements of `xs`
one at a time at pseudo-random positions.  `fuel` bounds the recursion and
is called with `xs.length`. -/
def shuffleIdx : Nat → Nat → List Nat → List Nat
  | _, 0, _ => []
  | _, _ + 1, [] => []
  | s, fuel + 1, x :: xs =>
    let l := x :: xs
    let i := s % l.length
    l.getD i 0 :: shuffleIdx (lcgNext s) fuel (l.eraseIdx i)

/-- A pseudo-random permutation of `[0, n)` derived from the seed. -/
def permOf (seed n : Nat) : List Nat :=
  shuffleIdx seed n (List.range n)

/-- Modelled from the spec: `sklearn.model_selection.train_test_split` is an
opaque library collaborator not in this repository; this follows its
documented contract.  It validates that `X` and `Y` have one length and that
a float `test_size` lies strictly in `(0, 1)`, computes
`n_test = ceil(test_size * n)` and `n_train = n - n_test`, rejects an empty
train or test side, shuffles the index range with the seeded generator, and
returns `(X[perm[n_test:]], X[perm[:n_test]], Y[perm[n_test:]], Y[perm[:n_test]])`. -/
def train_test_split (X : List (List Cell)) (Y : List Cell) (test_size : ℚ)
    (random_state : Nat) : Except SplitErr SplitResult :=
  if X.length ≠ Y.length then
    .error (.valueError "Found input variables with inconsistent numbers of samples")
  else if test_size ≤ 0 ∨ 1 ≤ test_size then
    .error (.valueError "test_size should be in the (0, 1) range")
  else if (ceilMul test_size X.length).toNat = 0
      ∨ X.length - (ceilMul test_size X.length).toNat = 0 then
    .error (.valueError "resulting train set or test set will be empty")
  else
    .ok (((permOf random_state X.length).drop (ceilMul test_size X.length).toNat).map
            (fun i => X.getD i []),
         ((permOf random_state X.length).take (ceilMul test_size X.length).toNat).map
            (fun i => X.getD i []),
         ((permOf random_state X.length).drop (ceilMul test_size X.length).toNat).map
            (fun i => Y.getD i (.num 0)),
         ((permOf random_state X.length).take (ceilMul test_size X.length).toNat).map
            (fun i => Y.getD i (.num 0)))

/-- `split_train_test(df, target, features, test_size, random_state, check_shape)`
with the library splitter abstracted as the parameter `tts`:
assert the feature list is non-empty, form `Y = df[target]` (the
`.values.reshape(-1, 1)` only changes the array shape, so `Y` stays a flat
list here) and `X = df[features]`, split, then under `check_shape` raise a
`ValueError` when the train feature and train target sample counts differ. -/
def split_train_test_gen
    (tts : List (List Cell) → List Cell → ℚ → Nat → Except SplitErr SplitResult)
    (df : DataFrame) (target : String) (features : List String)
    (test_size : ℚ) (random_state : Nat) (check_shape : Bool) :
    Except SplitErr SplitResult :=
  if features.length = 0 then
    .error (.configError "No feature columns provided")
  else
    match tts (df.selectCols features) (df.getCol target) test_size random_state with
    | .error e => .error e
    | .ok (Xtr, Xte, Ytr, Yte) =>
      if check_shape && Xtr.length != Ytr.length then
        .error (.valueError "X_train and Y_train have different number of samples")
      else
        .ok (Xtr, Xte, Ytr, Yte)

/-- The Partitioner of the script: `split_train_test` with the modelled
library splitter plugged in. -/
def split_train_test (df : DataFrame) (target : String) (features : List String)
    (test_size : ℚ) (random_state : Nat) (check_shape : Bool) :
    Except SplitErr SplitResult :=
  split_train_test_gen train_test_split df target features test_size random_state check_shape

/-- A fitted estimator, identified by its hyperparameter configuration
(content equality is what joblib round-tripping preserves). -/
structure Estm where
  config : List (String × ℚ)
deriving DecidableEq

/-- The object `RandomizedSearchCV(...).fit(...)` returns: the recorded
cross-validation history and the selected, refitted best estimator. -/
structure SearchResult where
  cv_results : List (List (String × ℚ) × ℚ)
  best_estimator : Estm
deriving DecidableEq

/-- A pickled blob in the artifact store: either a full search result or a
bare estimator. -/
inductive Blob
  | search (g : SearchResult)
  | estm (e : Estm)
deriving DecidableEq

/-- The on-disk artifact store: an association list from path strings to
blobs; the most recent binding for a path shadows older ones. -/
abbrev Store := List (String × Blob)

/-- `os.path.join` for the two-argument uses in the script. -/
def pathJoin (d f : String) : String :=
  d ++ "/" ++ f

/-- `joblib.dump(b, k)`: (over)write the blob at path `k`. -/
def Store.save (s : Store) (k : String) (b : Blob) : Store :=
  (k, b) :: s

/-- `joblib.load(k)` combined with `os.path.exists(k)`: the blob at path
`k`, when one exists. -/
def Store.load (s : Store) (k : String) : Option Blob :=
  s.lookup k

/-- What one call to `search_random_params` produced: the returned object,
the store afterwards, how many times the search driver ran (every model fit
happens inside the driver, so `searchesRun = 0` means zero fits), and
whether the load-without-search branch was taken.  `remakeUsed` records the
`remake` argument the call received. -/
structure SearchCall where
  result : Option Blob
  store : Store
  searchesRun : Nat
  cacheHit : Bool
  remakeUsed : Bool
deriving DecidableEq

/-- `search_random_params`: the Search Cache Layer.  The opaque driver
outcome `gsFit` stands for what `RandomizedSearchCV(model, param_dists,
...).fit(X_train, Y_train)` would return on the call's data.  If
`remake` is false and an artifact exists at `save_dir/filename`, load and
return it; otherwise run the search, dump the best estimator under
`best_name` when `save_best`, dump the full search object under `filename`,
and return the freshly loaded dump. -/
def search_random_params (gsFit : SearchResult) (filename save_dir : String)
    (save_best : Bool) (best_name : String) (remake : Bool) (store : Store) :
    SearchCall :=
  if !remake && (store.load (pathJoin save_dir filename)).isSome then
    ⟨store.load (pathJoin save_dir filename), store, 0, true, remake⟩
  else
    let gs := gsFit
    let store1 :=
      if save_best then store.save (pathJoin save_dir best_name) (.estm gs.best_estimator)
      else store
    let store2 := store1.save (pathJoin save_dir filename) (.search gs)
    ⟨store2.load (pathJoin save_dir filename), store2, 1, false, remake⟩

/-- The constant `SAVE_DIR` of the script (`os.path.join("..", "grid-search-results")`). -/
def SAVE_DIR : String := "../grid-search-results"

/-- The constant `SEED` of the script. -/
def SEED : Nat := 17

/-- The `test_size=0.10` literal of `main`, as a reduced-fraction literal
the kernel can evaluate (it equals `1 / 10`, see `testFraction_eq`). -/
def testFraction : ℚ := ⟨1, 10, by norm_num, by norm_num⟩

/-- The reduced-fraction literal agrees with `1 / 10`. -/
theorem testFraction_eq : testFraction = 1 / 10 := by
  unfold testFraction
  rw [Rat.mk'_eq_divInt, Rat.divInt_eq_div]
  norm_num

/-- The `targets` list of `main`. -/
def targetsList : List String := ["loop-tof"]

/-- The `non_features` list of `main`. -/
def nonFeaturesList : List String := ["steady-state-condition"]

/-- The feature-column computation of `main`:
`[f for f in columns if f not in targets + non_features]`. -/
def mainFeatures (columns : List String) : List String :=
  columns.filter (fun f => !(targetsList ++ nonFeaturesList).contains f)

/-- The outcome of the search driver as a function of the training data it
is fitted on; stands for `RandomizedSearchCV` with the model, parameter
distributions, `KFold` splitter, iteration budget, scoring rule and seed of
`main` baked in. -/
abbrev Driver := List (List Cell) → List Cell → SearchResult

/-- Trace of one iteration of `main`'s tag loop. -/
structure CallRecord where
  tag : String
  features : List String
  remakeUsed : Bool
  cacheHit : Bool
  searchesRun : Nat
deriving DecidableEq

/-- One iteration of `main`'s loop over `tags`, for tag `tag`: load the
csv (`ds` is the tabular data source), copy it, compute the feature list
from its columns, filter the near-zero `loop-tof` rows, append the
`log-loop-tof` encoding, split with `test_size=0.10` and the seed, ravel
the targets, and call `search_random_params` with `remake=True`,
`save_best=True` and the tag-derived filenames. -/
def runTag (ds : String → DataFrame) (driver : Driver) (store : Store)
    (tag : String) : Except SplitErr (Store × CallRecord) :=
  let pkls_subdir := pathJoin SAVE_DIR (tag ++ "_steady")
  let df_orig := ds ("ml_data_" ++ tag ++ "_steady.csv")
  let df_copy := df_orig
  let features := mainFeatures df_copy.cols
  let df_filtered := filterSteady df_copy
  let df := map_target_values df_filtered "loop-tof" "log-loop-tof" npLogAbsCell
  match split_train_test df "log-loop-tof" features testFraction SEED true with
  | .error e => .error e
  | .ok (Xtr, _Xte, Ytr, _Yte) =>
    let call := search_random_params (driver Xtr Ytr)
      ("rf_reg_" ++ tag ++ ".pkl") pkls_subdir true
      ("rf_reg_" ++ tag ++ "-best-estm.pkl") true store
    .ok (call.store, ⟨tag, features, call.remakeUsed, call.cacheHit, call.searchesRun⟩)

/-- The fixed `tags` list of `main`. -/
def mainTags : List String := ["op", "rc"]

/-- `main`'s loop: process the tags in order, threading the artifact store;
an unhandled stage error aborts the whole run (the Boolean flags an
abort), keeping the records of the completed iterations. -/
def mainLoop (ds : String → DataFrame) (driver : Driver) :
    List String → Store → Store × List CallRecord × Bool
  | [], store => (store, [], false)
  | tag :: rest, store =>
    match runTag ds driver store tag with
    | .error _ => (store, [], true)
    | .ok (store1, cr) =>
      let out := mainLoop ds driver rest store1
      (out.1, cr :: out.2.1, out.2.2)

/-- The entry point `main`, parameterized by the data source, the opaque
search driver and the initial state of the artifact store. -/
def mainRun (ds : String → DataFrame) (driver : Driver) (store : Store) :
    Store × List CallRecord × Bool :=
  mainLoop ds driver mainTags store

/-- The empty frame, the default of heap lookups. -/
def DataFrame.empty : DataFrame := ⟨[], []⟩

/-- A heap of pandas DataFrame objects; a reference is an index.  The heap
makes pandas object identity — and hence in-place mutation — observable. -/
abbrev Heap := List DataFrame

/-- Dereference. -/
def Heap.getRef (h : Heap) (r : Nat) : DataFrame :=
  h.getD r DataFrame.empty

/-- `df.copy()`: allocate a content-equal fresh object. -/
def copyRef (h : Heap) (r : Nat) : Heap × Nat :=
  (h ++ [h.getRef r], h.length)

/-- The Filtering Stage on the heap: `.loc` with a boolean mask allocates a
new frame; the argument object is untouched. -/
def filterSteadyRef (h : Heap) (r : Nat) : Heap × Nat :=
  (h ++ [filterSteady (h.getRef r)], h.length)

/-- The Target Encoder on the heap: `df[new] = df[target].map(enc)` mutates
the frame `r` points to in place, and `return df` returns the same
reference. -/
def mapTargetValuesRef (h : Heap) (r : Nat) (target new_target_name : String)
    (encoding : Cell → Cell) : Heap × Nat :=
  (h.set r (map_target_values (h.getRef r) target new_target_name encoding), r)

/-- The Partitioner on the heap: it only reads the frame; the heap is
returned unchanged. -/
def splitRef (h : Heap) (r : Nat) (target : String) (features : List String)
    (test_size : ℚ) (random_state : Nat) (check_shape : Bool) :
    Heap × Except SplitErr SplitResult :=
  (h, split_train_test (h.getRef r) target features test_size random_state check_shape)

/-- Joining two distinct filenames to one directory yields distinct paths. -/
theorem pathJoin_ne (d a b : String) (h : a ≠ b) : pathJoin d a ≠ pathJoin d b := by
  intro hcontra
  apply h
  have hd := congrArg String.data hcontra
  simp only [pathJoin, String.data_append] at hd
  exact String.ext (List.append_cancel_left hd)

/-- Example driver outcome used by concrete instantiations. -/
def gsEx : SearchResult :=
  ⟨[([("max_depth", 3)], -1)], ⟨[("max_depth", 3)]⟩⟩

/-- Example store holding a different search result at `d/f`. -/
def storeEx : Store :=
  [(pathJoin "d" "f", .search ⟨[], ⟨[]⟩⟩)]

/-- Claim C1: with `remake = false` and an artifact already present at the
path formed from `save_dir` and `filename`, `search_random_params` returns
exactly the stored artifact, runs the search driver zero times (all model
fitting happens inside the driver, so zero fits occur), and leaves the
store unchanged; a second consecutive such call — even with a different
would-be driver outcome — returns a content-equal result and again performs
zero fits. -/
theorem claim_C1 (gsFit gsFit2 : SearchResult) (filename save_dir : String)
    (save_best : Bool) (best_name : String) (store : Store)
    (hex : (store.load (pathJoin save_dir filename)).isSome = true) :
    (search_random_params gsFit filename save_dir save_best best_name false store).result
        = store.load (pathJoin save_dir filename)
    ∧ (search_random_params gsFit filename save_dir save_best best_name false store).searchesRun = 0
    ∧ (search_random_params gsFit filename save_dir save_best best_name false store).store = store
    ∧ (search_random_params gsFit2 filename save_dir save_best best_name false
          (search_random_params gsFit filename save_dir save_best best_name false store).store).result
        = (search_random_params gsFit filename save_dir save_best best_name false store).result
    ∧ (search_random_params gsFit2 filename save_dir save_best best_name false
          (search_random_params gsFit filename save_dir save_best best_name false store).store).searchesRun
        = 0 := by
  simp [search_random_params, hex]

/-- Concrete instantiation of C1 at an example store. -/
theorem claim_C1_witness :
    (search_random_params gsEx "f" "d" true "b" false storeEx).result
        = Store.load storeEx (pathJoin "d" "f")
    ∧ (search_random_params gsEx "f" "d" true "b" false storeEx).searchesRun = 0
    ∧ (search_random_params gsEx "f" "d" true "b" false storeEx).store = storeEx
    ∧ (search_random_params gsEx "f" "d" true "b" false
          (search_random_params gsEx "f" "d" true "b" false storeEx).store).result
        = (search_random_params gsEx "f" "d" true "b" false storeEx).result
    ∧ (search_random_params gsEx "f" "d" true "b" false
          (search_random_params gsEx "f" "d" true "b" false storeEx).store).searchesRun
        = 0 :=
  claim_C1 gsEx gsEx "f" "d" true "b" storeEx (by decide)

/-- Claim C2: with `remake = true`, or with no artifact at the primary key,
`search_random_params` runs the search once, persists the full search
result at the primary key (shadowing any artifact previously there),
persists the best estimator at the distinct secondary key exactly when
`save_best` is set (the secondary key's content is untouched otherwise),
and returns an object content-equal to the artifact now stored at the
primary key. -/
theorem claim_C2 (gsFit : SearchResult) (filename save_dir : String)
    (save_best : Bool) (best_name : String) (remake : Bool) (store : Store)
    (hbn : best_name ≠ filename)
    (hcase : remake = true ∨ (store.load (pathJoin save_dir filename)).isSome = false) :
    (search_random_params gsFit filename save_dir save_best best_name remake store).searchesRun = 1
    ∧ (search_random_params gsFit filename save_dir save_best best_name remake store).store.load
          (pathJoin save_dir filename) = some (.search gsFit)
    ∧ (search_random_params gsFit filename save_dir save_best best_name remake store).result
        = some (.search gsFit)
    ∧ pathJoin save_dir best_name ≠ pathJoin save_dir filename
    ∧ (search_random_params gsFit filename save_dir save_best best_name remake store).store.load
          (pathJoin save_dir best_name)
        = (if save_best then some (.estm gsFit.best_estimator)
           else store.load (pathJoin save_dir best_name)) := by
  have hk : pathJoin save_dir best_name ≠ pathJoin save_dir filename := pathJoin_ne _ _ _ hbn
  have hcond : (!remake && (List.lookup (pathJoin save_dir filename) store).isSome) = false := by
    rcases hcase with h | h
    · simp [h]
    · simp only [Store.load] at h
      simp [h]
  have hkb : (pathJoin save_dir best_name == pathJoin save_dir filename) = false :=
    beq_eq_false_iff_ne.mpr hk
  cases save_best <;>
    simp [search_random_params, Store.load, Store.save, hcond, List.lookup, hk, hkb, beq_iff_eq]

/-- Concrete instantiation of C2 at an example store that already holds an
artifact at the primary key, with `remake = true`. -/
theorem claim_C2_witness :
    (search_random_params gsEx "f" "d" true "b" true storeEx).searchesRun = 1
    ∧ (search_random_params gsEx "f" "d" true "b" true storeEx).store.load
          (pathJoin "d" "f") = some (.search gsEx)
    ∧ (search_random_params gsEx "f" "d" true "b" true storeEx).result
        = some (.search gsEx)
    ∧ pathJoin "d" "b" ≠ pathJoin "d" "f"
    ∧ (search_random_params gsEx "f" "d" true "b" true storeEx).store.load
          (pathJoin "d" "b")
        = (if true then some (.estm gsEx.best_estimator)
           else Store.load storeEx (pathJoin "d" "b")) :=
  claim_C2 gsEx "f" "d" true "b" true storeEx (by decide) (Or.inl rfl)

/-- Multiplicity characterization of a row filter: a row occurs in the
filtered rows as often as in the input when it passes the predicate, and
not at all otherwise. -/
theorem count_filter_rows (p : List Cell → Bool) (l : List (List Cell)) (r : List Cell) :
    (l.filter p).count r = if p r then l.count r else 0 := by
  by_cases hp : p r = true
  · simp [hp, List.count_filter hp]
  · simp only [Bool.not_eq_true] at hp
    simp only [hp, Bool.false_eq_true, if_false]
    exact List.count_eq_zero.mpr (fun hm => by simp [List.mem_filter, hp] at hm)

/-- Example frame: seven rows with `loop-tof` values
`2, -2, 0, 1/20000, 1, -1, 1/10000`. -/
def dfEx : DataFrame :=
  ⟨["a", "loop-tof"],
   [[.num 1, .num 2], [.num 2, .num (-2)], [.num 3, .num 0],
    [.num 4, .num ⟨1, 20000, by norm_num, by norm_num⟩], [.num 5, .num 1],
    [.num 6, .num (-1)], [.num 7, .num epsPos]]⟩

/-- The first example row. -/
def rowEx : List Cell := [.num 1, .num 2]

/-- Claim C3: the Filtering Stage returns exactly the subsequence of rows
whose `loop-tof` value satisfies `v <= -1e-4 or v >= 1e-4`, in the original
order (a sublist with exactly the multiplicities of the passing rows), with
the columns untouched; consequently no remaining row has a `loop-tof` value
inside the open interval `(-1e-4, 1e-4)`. -/
theorem claim_C3 (df : DataFrame) :
    (filterSteady df).rows.Sublist df.rows
    ∧ (filterSteady df).cols = df.cols
    ∧ (∀ r, (filterSteady df).rows.count r
          = if steadyPred df r then df.rows.count r else 0)
    ∧ (∀ r ∈ (filterSteady df).rows, steadyPred df r = true)
    ∧ (∀ r ∈ (filterSteady df).rows, ∀ q : ℚ,
          getCell r (colIdx df "loop-tof") = .num q →
          ¬(-(1 / 10000) < q ∧ q < 1 / 10000)) := by
  have hrows : (filterSteady df).rows = df.rows.filter (steadyPred df) := rfl
  refine ⟨hrows ▸ List.filter_sublist _, rfl,
    fun r => hrows ▸ count_filter_rows _ _ _, ?_, ?_⟩
  · intro r hr
    exact (List.mem_filter.mp (hrows ▸ hr)).2
  · intro r hr q hq hcontra
    have hp := (List.mem_filter.mp (hrows ▸ hr)).2
    simp only [steadyPred, hq, loopTofKeep, Bool.or_eq_true, decide_eq_true_eq] at hp
    rcases hp with h1 | h1
    · rw [epsNeg_eq] at h1
      linarith [hcontra.1]
    · rw [epsPos_eq] at h1
      linarith [hcontra.2]

/-- Concrete instantiation of C3 at the example frame and its first row. -/
theorem claim_C3_witness :
    (filterSteady dfEx).rows.count rowEx
      = (if steadyPred dfEx rowEx then dfEx.rows.count rowEx else 0)
    ∧ (filterSteady dfEx).cols = dfEx.cols :=
  ⟨(claim_C3 dfEx).2.2.1 rowEx, (claim_C3 dfEx).2.1⟩

/-- Length of the shuffled draw: it stops at the fuel or when the pool is
exhausted. -/
theorem shuffleIdx_length (fuel : Nat) : ∀ (s : Nat) (xs : List Nat),
    (shuffleIdx s fuel xs).length = min fuel xs.length := by
  induction fuel with
  | zero => intro s xs; simp [shuffleIdx]
  | succ n ih =>
    intro s xs
    cases xs with
    | nil => simp [shuffleIdx]
    | cons x l =>
      have hlt : s % (x :: l).length < (x :: l).length := Nat.mod_lt _ (by simp)
      simp only [shuffleIdx, List.length_cons, ih, List.length_eraseIdx]
      simp only [List.length_cons] at hlt
      simp only [hlt, if_true]
      omega

/-- The seeded index permutation has exactly `n` entries. -/
theorem permOf_length (seed n : Nat) : (permOf seed n).length = n := by
  simp [permOf, shuffleIdx_length]

/-- Length contract of the modelled library splitter: on success the train
sides agree in length, the test sides agree in length, and train and test
together exhaust the input. -/
theorem train_test_split_lengths (X : List (List Cell)) (Y : List Cell)
    (test_size : ℚ) (seed : Nat) (Xtr Xte : List (List Cell)) (Ytr Yte : List Cell)
    (h : train_test_split X Y test_size seed = .ok (Xtr, Xte, Ytr, Yte)) :
    Xtr.length = Ytr.length ∧ Xte.length = Yte.length
    ∧ Xtr.length + Xte.length = X.length := by
  unfold train_test_split at h
  split at h
  · simp at h
  split at h
  · simp at h
  split at h
  · simp at h
  rename_i hguard
  push_neg at hguard
  have hk : (ceilMul test_size X.length).toNat < X.length := by
    rcases hguard with ⟨h5, h6⟩
    omega
  simp only [Except.ok.injEq, Prod.mk.injEq] at h
  obtain ⟨h1, h2, h3, h4⟩ := h
  subst h1 h2 h3 h4
  refine ⟨by simp, by simp, ?_⟩
  simp only [List.length_map, List.length_drop]
  rw [List.length_take_of_le (by rw [permOf_length]; exact le_of_lt hk), permOf_length]
  omega

/-- Claim C4: whenever `split_train_test` returns a 4-tuple
`(X_train, X_test, Y_train, Y_test)` (for a test fraction strictly between
0 and 1), the train sides have equal length, the test sides have equal
length, and train plus test lengths equal the number of rows of the input
feature matrix. -/
theorem claim_C4 (df : DataFrame) (target : String) (features : List String)
    (test_size : ℚ) (seed : Nat) (check_shape : Bool)
    (Xtr Xte : List (List Cell)) (Ytr Yte : List Cell)
    (h0 : 0 < test_size) (h1 : test_size < 1)
    (hok : split_train_test df target features test_size seed check_shape
        = .ok (Xtr, Xte, Ytr, Yte)) :
    Xtr.length = Ytr.length ∧ Xte.length = Yte.length
    ∧ Xtr.length + Xte.length = (df.selectCols features).length := by
  unfold split_train_test split_train_test_gen at hok
  split at hok
  · simp at hok
  cases htts : train_test_split (df.selectCols features) (df.getCol target) test_size seed with
  | error e =>
    rw [htts] at hok
    simp at hok
  | ok res =>
    obtain ⟨a, b, c, d⟩ := res
    rw [htts] at hok
    dsimp only at hok
    split at hok
    · simp at hok
    simp only [Except.ok.injEq, Prod.mk.injEq] at hok
    obtain ⟨e1, e2, e3, e4⟩ := hok
    subst e1 e2 e3 e4
    exact train_test_split_lengths _ _ _ _ _ _ _ _ htts

/-- The train features the example split produces. -/
def XtrEx : List (List Cell) :=
  [[.num 3], [.num 6], [.num 1], [.num 7], [.num 2], [.num 5]]

/-- The test features the example split produces. -/
def XteEx : List (List Cell) := [[.num 4]]

/-- The train targets the example split produces. -/
def YtrEx : List Cell :=
  [.num 0, .num (-1), .num 2, .num epsPos, .num (-2), .num 1]

/-- The test targets the example split produces. -/
def YteEx : List Cell := [.num ⟨1, 20000, by norm_num, by norm_num⟩]

/-- Concrete instantiation of C4 on the example frame with `test_size = 0.10`. -/
theorem claim_C4_witness :
    XtrEx.length = YtrEx.length ∧ XteEx.length = YteEx.length
    ∧ XtrEx.length + XteEx.length = (dfEx.selectCols ["a"]).length :=
  claim_C4 dfEx "loop-tof" ["a"] testFraction 17 true XtrEx XteEx YtrEx YteEx
    (by decide) (by decide) (by decide)

/-- The modelled library splitter signals only `ValueError`s, never a
configuration error. -/
theorem train_test_split_no_config (X : List (List Cell)) (Y : List Cell)
    (test_size : ℚ) (seed : Nat) (msg : String) :
    train_test_split X Y test_size seed ≠ .error (.configError msg) := by
  unfold train_test_split
  split
  · simp
  split
  · simp
  split
  · simp
  · simp

/-- Claim C5: `split_train_test` fails with a configuration error exactly
when the feature list is empty, and in that case it fails eagerly — the
result is the assertion error uniformly in the frame, the split fraction
and the seed, before any splitting happens. -/
theorem claim_C5 (df : DataFrame) (target : String) (features : List String)
    (test_size : ℚ) (seed : Nat) (check_shape : Bool) :
    ((∃ msg, split_train_test df target features test_size seed check_shape
        = .error (.configError msg)) ↔ features = [])
    ∧ (features = [] →
        split_train_test df target features test_size seed check_shape
          = .error (.configError "No feature columns provided")) := by
  have hempty : features = [] →
      split_train_test df target features test_size seed check_shape
        = .error (.configError "No feature columns provided") := by
    intro he
    subst he
    rfl
  refine ⟨⟨?_, fun he => ⟨_, hempty he⟩⟩, hempty⟩
  rintro ⟨msg, hmsg⟩
  by_contra hne
  have hlen : ¬ features.length = 0 := by
    simpa [List.length_eq_zero] using hne
  unfold split_train_test split_train_test_gen at hmsg
  rw [if_neg hlen] at hmsg
  cases htts : train_test_split (df.selectCols features) (df.getCol target) test_size seed with
  | error e =>
    rw [htts] at hmsg
    dsimp only at hmsg
    rcases hmsg with ⟨⟩
    exact train_test_split_no_config _ _ _ _ _ htts
  | ok res =>
    obtain ⟨a, b, c, d⟩ := res
    rw [htts] at hmsg
    dsimp only at hmsg
    split at hmsg
    · simp at hmsg
    · simp at hmsg

/-- Concrete instantiation of C5: on the example frame, an empty feature
list yields the configuration error, and with a non-empty feature list no
configuration error occurs. -/
theorem claim_C5_witness :
    split_train_test dfEx "loop-tof" ([] : List String) (1 / 10) 17 true
      = .error (.configError "No feature columns provided") :=
  (claim_C5 dfEx "loop-tof" [] (1 / 10) 17 true).2 rfl

/-- Claim C6: under `check_shape`, after the library splitter returns,
`split_train_test` compares the train feature sample count with the train
target sample count: it raises the `ValueError` when they differ and
returns the split unchanged when they agree.  Stated over an arbitrary
splitter outcome, since the check defends against the collaborator. -/
theorem claim_C6
    (tts : List (List Cell) → List Cell → ℚ → Nat → Except SplitErr SplitResult)
    (df : DataFrame) (target : String) (features : List String)
    (test_size : ℚ) (seed : Nat)
    (Xtr Xte : List (List Cell)) (Ytr Yte : List Cell)
    (hf : features ≠ [])
    (htts : tts (df.selectCols features) (df.getCol target) test_size seed
        = .ok (Xtr, Xte, Ytr, Yte)) :
    (Xtr.length ≠ Ytr.length →
      split_train_test_gen tts df target features test_size seed true
        = .error (.valueError "X_train and Y_train have different number of samples"))
    ∧ (Xtr.length = Ytr.length →
      split_train_test_gen tts df target features test_size seed true
        = .ok (Xtr, Xte, Ytr, Yte)) := by
  have hlen : ¬ features.length = 0 := by
    simpa [List.length_eq_zero] using hf
  constructor <;> intro hc <;>
    simp [split_train_test_gen, hlen, htts, hc, bne_iff_ne]

/-- A degenerate splitter outcome whose train sides disagree in length. -/
def ttsBad : List (List Cell) → List Cell → ℚ → Nat → Except SplitErr SplitResult :=
  fun _ _ _ _ => .ok ([], [], [Cell.num 0], [])

/-- Concrete instantiation of C6: a splitter outcome with 0 train feature
rows but 1 train target makes the shape check raise. -/
theorem claim_C6_witness :
    split_train_test_gen ttsBad DataFrame.empty "t" ["a"] testFraction 17 true
      = .error (.valueError "X_train and Y_train have different number of samples") :=
  (claim_C6 ttsBad DataFrame.empty "t" ["a"] testFraction 17
      [] [] [Cell.num 0] [] (by decide) rfl).1 (by decide)

/-- Claim C7: on a well-formed frame and a fresh column name, every entry of
the new column equals the encoding applied to that row's entry of the
existing target column; for the encoding `log(abs(x))`, the inputs `-2` and
`2` both yield the value `log 2`, and the input `0` yields the non-finite
value `-inf` instead of raising. -/
theorem claim_C7 (df : DataFrame) (target new_target_name : String)
    (encoding : Cell → Cell) (hwf : df.wf) (hnew : new_target_name ∉ df.cols) :
    (map_target_values df target new_target_name encoding).getCol new_target_name
      = (df.getCol target).map encoding
    ∧ npLogAbsCell (.num (-2)) = .logOf 2
    ∧ npLogAbsCell (.num 2) = .logOf 2
    ∧ npLogAbsCell (.num (-2)) = npLogAbsCell (.num 2)
    ∧ npLogAbsCell (.num 0) = .negInf
    ∧ Cell.isFinite (npLogAbsCell (.num 0)) = false := by
  refine ⟨?_, by decide, by decide, by decide, by decide, by decide⟩
  have hcont : df.cols.contains new_target_name = false := by
    simpa using hnew
  have hidx : List.indexOf new_target_name (df.cols ++ [new_target_name])
      = df.cols.length := by
    rw [List.indexOf_append_of_not_mem hnew]
    simp [List.indexOf_cons]
  unfold map_target_values
  rw [hcont]
  simp only [Bool.false_eq_true, if_false, DataFrame.getCol, colIdx, hidx, List.map_map]
  refine List.map_congr_left ?_
  intro r hr
  have hlen : r.length = df.cols.length := hwf r hr
  simp only [Function.comp_apply, getCell]
  rw [← hlen, List.getD_append_right _ _ _ _ (le_refl _)]
  simp

/-- Concrete instantiation of C7 at the example frame. -/
theorem claim_C7_witness :
    (map_target_values dfEx "loop-tof" "log-loop-tof" npLogAbsCell).getCol "log-loop-tof"
      = (dfEx.getCol "loop-tof").map npLogAbsCell
    ∧ npLogAbsCell (.num (-2)) = .logOf 2
    ∧ npLogAbsCell (.num 2) = .logOf 2
    ∧ npLogAbsCell (.num (-2)) = npLogAbsCell (.num 2)
    ∧ npLogAbsCell (.num 0) = .negInf
    ∧ Cell.isFinite (npLogAbsCell (.num 0)) = false :=
  claim_C7 dfEx "loop-tof" "log-loop-tof" npLogAbsCell (by decide) (by decide)

/-- Every successful iteration of `main`'s loop records its tag, the
feature list computed from the loaded csv's columns, and a search call made
with `remake = true` that missed the cache-hit branch and ran the search
once. -/
theorem runTag_record (ds : String → DataFrame) (driver : Driver)
    (store : Store) (tag : String) (store1 : Store) (cr : CallRecord)
    (h : runTag ds driver store tag = .ok (store1, cr)) :
    cr.tag = tag
    ∧ cr.features = mainFeatures (ds ("ml_data_" ++ tag ++ "_steady.csv")).cols
    ∧ cr.remakeUsed = true
    ∧ cr.cacheHit = false
    ∧ cr.searchesRun = 1 := by
  unfold runTag at h
  dsimp only at h
  cases hs : split_train_test
      (map_target_values (filterSteady (ds ("ml_data_" ++ tag ++ "_steady.csv")))
        "loop-tof" "log-loop-tof" npLogAbsCell)
      "log-loop-tof" (mainFeatures (ds ("ml_data_" ++ tag ++ "_steady.csv")).cols)
      testFraction SEED true with
  | error e =>
    rw [hs] at h
    simp at h
  | ok res =>
    obtain ⟨a, b, c, d⟩ := res
    rw [hs] at h
    simp only [search_random_params, Bool.not_true, Bool.false_and, Bool.false_eq_true,
      if_false, Except.ok.injEq, Prod.mk.injEq] at h
    obtain ⟨h1, h2⟩ := h
    subst h2
    exact ⟨rfl, rfl, rfl, rfl, rfl⟩

/-- Loop invariant for `mainLoop`: all recorded calls used `remake = true`,
missed the cache, and ran one search; when no tag aborted, the recorded
tags are exactly the processed tag list in order. -/
theorem mainLoop_records (ds : String → DataFrame) (driver : Driver) :
    ∀ (tags : List String) (store : Store),
    (∀ cr ∈ (mainLoop ds driver tags store).2.1,
        cr.remakeUsed = true ∧ cr.cacheHit = false ∧ cr.searchesRun = 1)
    ∧ ((mainLoop ds driver tags store).2.2 = false →
        (mainLoop ds driver tags store).2.1.map CallRecord.tag = tags) := by
  intro tags
  induction tags with
  | nil =>
    intro store
    exact ⟨fun cr hcr => absurd hcr (List.not_mem_nil cr), fun _ => rfl⟩
  | cons t rest ih =>
    intro store
    unfold mainLoop
    cases hr : runTag ds driver store t with
    | error e =>
      refine ⟨fun cr hcr => absurd hcr (List.not_mem_nil cr), fun hab => absurd hab (by simp)⟩
    | ok p =>
      obtain ⟨store1, cr⟩ := p
      have hrec := runTag_record ds driver store t store1 cr hr
      dsimp only
      constructor
      · intro c hc
        rcases List.mem_cons.mp hc with hce | hce
        · subst hce
          exact ⟨hrec.2.2.1, hrec.2.2.2.1, hrec.2.2.2.2⟩
        · exact (ih store1).1 c hce
      · intro hab
        simp only [List.map_cons]
        rw [hrec.1, (ih store1).2 hab]

/-- Claim C8: the entry point iterates over exactly the fixed tag list
`["op", "rc"]`, and every `search_random_params` call it makes receives
`remake = true`; consequently the load-without-search branch is never taken
during any execution of `main` — every recorded call missed the cache and
ran the search. -/
theorem claim_C8 (ds : String → DataFrame) (driver : Driver) (store : Store) :
    mainTags = ["op", "rc"]
    ∧ (∀ cr ∈ (mainRun ds driver store).2.1,
        cr.remakeUsed = true ∧ cr.cacheHit = false ∧ cr.searchesRun = 1)
    ∧ ((mainRun ds driver store).2.2 = false →
        (mainRun ds driver store).2.1.map CallRecord.tag = ["op", "rc"]) :=
  ⟨rfl, (mainLoop_records ds driver mainTags store).1,
    (mainLoop_records ds driver mainTags store).2⟩

/-- Concrete instantiation of C8: running `main` on the example data source
completes both tags with no cache hit. -/
theorem claim_C8_witness :
    (mainRun (fun _ => dfEx) (fun _ _ => gsEx) []).2.1.map CallRecord.tag
      = ["op", "rc"] :=
  (claim_C8 (fun _ => dfEx) (fun _ _ => gsEx) []).2.2 (by decide)

/-- Membership characterization of `main`'s feature-column computation,
plus the exclusions it guarantees. -/
theorem mainFeatures_spec (columns : List String) :
    "loop-tof" ∉ mainFeatures columns
    ∧ "steady-state-condition" ∉ mainFeatures columns
    ∧ (∀ f, f ∈ mainFeatures columns ↔
        (f ∈ columns ∧ f ≠ "loop-tof" ∧ f ≠ "steady-state-condition")) := by
  refine ⟨?_, ?_, ?_⟩
  · intro hmem
    simp [mainFeatures, List.mem_filter, targetsList, nonFeaturesList] at hmem
  · intro hmem
    simp [mainFeatures, List.mem_filter, targetsList, nonFeaturesList] at hmem
  · intro f
    simp [mainFeatures, List.mem_filter, targetsList, nonFeaturesList]

/-- Claim C10: in every successful iteration of `main`'s loop, the feature
list handed to the splitter is computed from the loaded frame's columns —
before the derived `log-loop-tof` column is appended — excluding `loop-tof`
and `steady-state-condition`; hence, since the loaded csv does not come
with a `log-loop-tof` column, the derived target is never among the
features. -/
theorem claim_C10 (ds : String → DataFrame) (driver : Driver)
    (store : Store) (tag : String) (store1 : Store) (cr : CallRecord)
    (hok : runTag ds driver store tag = .ok (store1, cr)) :
    cr.features = mainFeatures (ds ("ml_data_" ++ tag ++ "_steady.csv")).cols
    ∧ "loop-tof" ∉ cr.features
    ∧ "steady-state-condition" ∉ cr.features
    ∧ ("log-loop-tof" ∉ (ds ("ml_data_" ++ tag ++ "_steady.csv")).cols →
        "log-loop-tof" ∉ cr.features) := by
  have hf := (runTag_record ds driver store tag store1 cr hok).2.1
  have hspec := mainFeatures_spec (ds ("ml_data_" ++ tag ++ "_steady.csv")).cols
  refine ⟨hf, hf ▸ hspec.1, hf ▸ hspec.2.1, ?_⟩
  intro hcols hmem
  exact hcols ((hspec.2.2 "log-loop-tof").mp (hf ▸ hmem)).1

/-- The store resulting from the example run of one tag. -/
def storeOpEx : Store :=
  [("../grid-search-results/op_steady/rf_reg_op.pkl", .search gsEx),
   ("../grid-search-results/op_steady/rf_reg_op-best-estm.pkl", .estm gsEx.best_estimator)]

/-- The call record of the example run of one tag. -/
def crOpEx : CallRecord :=
  ⟨"op", ["a"], true, false, 1⟩

/-- Concrete instantiation of C10 at the example data source. -/
theorem claim_C10_witness :
    crOpEx.features = mainFeatures ((fun (_ : String) => dfEx) "ml_data_op_steady.csv").cols
    ∧ "loop-tof" ∉ crOpEx.features
    ∧ "steady-state-condition" ∉ crOpEx.features
    ∧ ("log-loop-tof" ∉ ((fun (_ : String) => dfEx) "ml_data_op_steady.csv").cols →
        "log-loop-tof" ∉ crOpEx.features) :=
  claim_C10 (fun _ => dfEx) (fun _ _ => gsEx) [] "op" storeOpEx crOpEx (by decide)

/-- When the new column name is fresh, the Target Encoder appends it to the
header, and on a well-formed frame every pre-existing column keeps exactly
its values. -/
theorem map_target_values_preserves (df : DataFrame) (target new_target_name : String)
    (encoding : Cell → Cell) (hnew : new_target_name ∉ df.cols) (hwf : df.wf) :
    (map_target_values df target new_target_name encoding).cols
      = df.cols ++ [new_target_name]
    ∧ ∀ c ∈ df.cols,
        (map_target_values df target new_target_name encoding).getCol c
          = df.getCol c := by
  have hcont : df.cols.contains new_target_name = false := by
    simpa using hnew
  constructor
  · simp [map_target_values, hnew]
  · intro c hc
    have hidx : List.indexOf c (df.cols ++ [new_target_name])
        = List.indexOf c df.cols :=
      List.indexOf_append_of_mem hc
    unfold map_target_values
    rw [hcont]
    simp only [Bool.false_eq_true, if_false, DataFrame.getCol, colIdx, hidx, List.map_map]
    refine List.map_congr_left ?_
    intro row hrow
    simp only [Function.comp_apply, getCell]
    have hlt : List.indexOf c df.cols < row.length := by
      rw [hwf row hrow]
      exact List.indexOf_lt_length.mpr hc
    rw [List.getD_append _ _ _ _ hlt]

/-- Claim C9 fails on the code: the Target Encoder stage mutates the frame
object passed to it in place — after the call, the object at the same
reference no longer has the columns it had before the call. -/
theorem claim_C9_counterexample :
    ((mapTargetValuesRef [dfEx] 0 "loop-tof" "log-loop-tof" npLogAbsCell).1.getRef 0).cols
      ≠ (Heap.getRef [dfEx] 0).cols := by
  decide

/-- Claim C9 amended: the Filtering Stage allocates a fresh frame and
leaves every existing object (in particular the one passed) unchanged;
`df.copy()` likewise; the Partitioner leaves the heap untouched.  The
Target Encoder, however, mutates the dataset passed to it in place: it
returns the same reference, the object now carries the old columns plus
the appended new column, every other object is unchanged, and on a
well-formed frame with a fresh column name the pre-existing columns keep
their values. -/
theorem claim_C9_amended (h : Heap) (r : Nat) (target new_target_name : String)
    (encoding : Cell → Cell) (tgt : String) (features : List String)
    (test_size : ℚ) (seed : Nat) (check_shape : Bool)
    (hr : r < h.length) (hnew : new_target_name ∉ (h.getRef r).cols)
    (hwf : (h.getRef r).wf) :
    (filterSteadyRef h r).1.getRef r = h.getRef r
    ∧ (∀ i, i < h.length → (filterSteadyRef h r).1.getRef i = h.getRef i)
    ∧ (copyRef h r).1.getRef r = h.getRef r
    ∧ (splitRef h r tgt features test_size seed check_shape).1 = h
    ∧ (mapTargetValuesRef h r target new_target_name encoding).2 = r
    ∧ ((mapTargetValuesRef h r target new_target_name encoding).1.getRef r).cols
        = (h.getRef r).cols ++ [new_target_name]
    ∧ (∀ i, i ≠ r →
        (mapTargetValuesRef h r target new_target_name encoding).1.getRef i
          = h.getRef i)
    ∧ (∀ c ∈ (h.getRef r).cols,
        ((mapTargetValuesRef h r target new_target_name encoding).1.getRef r).getCol c
          = (h.getRef r).getCol c) := by
  have hmp := map_target_values_preserves (h.getRef r) target new_target_name encoding hnew hwf
  have hgetr : ∀ (x : DataFrame) (i : Nat), i < h.length →
      Heap.getRef (h ++ [x]) i = h.getRef i := by
    intro x i hi
    simp [Heap.getRef, List.getD_eq_getElem?_getD, List.getElem?_append, hi]
  have hset_self : Heap.getRef
      (h.set r (map_target_values (h.getRef r) target new_target_name encoding)) r
      = map_target_values (h.getRef r) target new_target_name encoding := by
    simp [Heap.getRef, List.getD_eq_getElem?_getD, List.getElem?_set_self hr]
  refine ⟨hgetr _ r hr, fun i hi => hgetr _ i hi, hgetr _ r hr, rfl, rfl, ?_, ?_, ?_⟩
  · dsimp only [mapTargetValuesRef]
    rw [hset_self, hmp.1]
  · intro i hi
    dsimp only [mapTargetValuesRef]
    simp [Heap.getRef, List.getD_eq_getElem?_getD, List.getElem?_set_ne (Ne.symm hi)]
  · intro c hc
    dsimp only [mapTargetValuesRef]
    rw [hset_self]
    exact hmp.2 c hc

/-- Concrete instantiation of the amended C9 on a one-frame heap. -/
theorem claim_C9_amended_witness :
    (filterSteadyRef [dfEx] 0).1.getRef 0 = Heap.getRef [dfEx] 0
    ∧ (mapTargetValuesRef [dfEx] 0 "loop-tof" "log-loop-tof" npLogAbsCell).2 = 0
    ∧ ((mapTargetValuesRef [dfEx] 0 "loop-tof" "log-loop-tof" npLogAbsCell).1.getRef 0).cols
        = (Heap.getRef [dfEx] 0).cols ++ ["log-loop-tof"] := by
  have h := claim_C9_amended [dfEx] 0 "loop-tof" "log-loop-tof" npLogAbsCell
    "t" ["a"] testFraction 17 true (by decide) (by decide) (by decide)
  exact ⟨h.1, h.2.2.2.2.1, h.2.2.2.2.2.1⟩
